import Mathlib

/-!
Shallow embedding of the audio playback engine in `src/media_handler.py`
(class `AudioPlayer`), together with theorems checking the natural-language
specification against the code.

Modelling conventions:
* Python attribute state of an `AudioPlayer` object is the structure `PState`.
  `threading.Event` objects become `Bool` fields (`true` = set).
  Audio file paths are opaque identifiers (`Option Nat`).
* Python `int(x)` (truncation toward zero) on a rational is `pyInt`.
* The real-valued signal path (numpy / pyloudnorm float math) is embedded
  over `ℝ`; the external loudness meter `pyln.Meter(...).integrated_loudness`
  is an abstract parameter `meter : List ℝ → ℝ`.
* The concurrent start-while-paused handshake of `start_audio_playback`
  (lines 117-130) against a paused stream callback is a small-step
  interleaving transition system `C1State` / `c1step`.
-/

namespace MediaPlayer

/-- Python-style truncation toward zero, the semantics of `int(x)` applied to
a float/rational value. -/
def pyInt (q : ℚ) : ℤ :=
  if 0 ≤ q then ⌊q⌋ else ⌈q⌉

/-- The attribute state of an `AudioPlayer` object (src/media_handler.py,
`__init__`, lines 48-76).  `threading.Event` fields are booleans (`true` =
set); the display buffer itself is handled separately in the callback
embedding since it carries real-valued samples. -/
structure PState where
  volume : ℚ
  normalization_max : ℚ
  normalization_min : ℚ
  normalization_bias : ℚ
  audio_path : Option Nat
  audio_channels : Nat
  audio_frames : Nat
  audio_sample_rate : Nat
  is_playback_unpaused : Bool
  is_stopped : Bool
  no_audio_loaded : Bool
  is_window_focused : Bool
  display_skip_rate : Nat
  display_frame_chunk_factor : Nat
  current_frame : ℤ
deriving DecidableEq

/-- Embeds `AudioPlayer.__init__` (lines 35-76).  Note the `volume` argument is
stored WITHOUT clamping (line 48); `display_skip_rate` is floored to 1
(lines 68-71); both pause events start set/cleared exactly as in the code
(`is_playback_unpaused.set()` line 61, `no_audio_loaded.set()` line 64).
The source calls the last field `display_frame_chunk_ratio`. -/
def AudioPlayer_init (normalization_max normalization_min normalization_bias volume : ℚ)
    (inital_audio_path : Option Nat) (display_frame_chunk_factor display_skip_rate : Nat) :
    PState :=
  { volume := volume
    normalization_max := normalization_max
    normalization_min := normalization_min
    normalization_bias := normalization_bias
    audio_path := inital_audio_path
    audio_channels := 0
    audio_frames := 0
    audio_sample_rate := 0
    is_playback_unpaused := true
    is_stopped := false
    no_audio_loaded := true
    is_window_focused := false
    display_skip_rate := if display_skip_rate > 1 then display_skip_rate else 1
    display_frame_chunk_factor := display_frame_chunk_factor
    current_frame := 0 }

/-- Embeds `AudioPlayer.__init__` with the default argument values of the source:
`normalization_max = -3, normalization_min = -20, normalization_bias = 1/8,
volume = 1, inital_audio_path = None, display_frame_chunk_ratio = 50,
display_skip_rate = 1`, except that `volume` stays a parameter. -/
def AudioPlayer_init_default_with_volume (volume : ℚ) : PState :=
  AudioPlayer_init (-3) (-20) (1/8) volume none 50 1

/-- Embeds `AudioPlayer.set_volume` (lines 223-231): clamps the target into [0,1]
and stores it under the lock. -/
def set_volume (target_volume : ℚ) (s : PState) : PState :=
  { s with volume := min (max 0 target_volume) 1 }

/-- Embeds `AudioPlayer.seek` (lines 207-222): when a file is loaded
(`audio_frames > 0`), stores `int(audio_frames*position)` (percentage mode)
or `int(position)` (direct mode) into `current_frame`, with NO clamping. -/
def seek (position : ℚ) (percentage : Bool) (s : PState) : PState :=
  if s.audio_frames > 0 then
    if percentage then
      { s with current_frame := pyInt ((s.audio_frames : ℚ) * position) }
    else
      { s with current_frame := pyInt position }
  else s

/-- Embeds `AudioPlayer.pause_audio` (lines 184-189): clears the unpaused event,
guarded by `audio_frames > 0` (the `is_playback_unpaused is not None`
conjunct is always true, the event is created in `__init__`). -/
def pause_audio (s : PState) : PState :=
  if s.audio_frames > 0 then { s with is_playback_unpaused := false } else s

/-- Embeds `AudioPlayer.unpause_audio` (lines 191-196). -/
def unpause_audio (s : PState) : PState :=
  if s.audio_frames > 0 then { s with is_playback_unpaused := true } else s

/-- Embeds `AudioPlayer.toggle_pause` (lines 198-205): dispatches on the current
event state, delegating to the guarded pause/unpause methods. -/
def toggle_pause (s : PState) : PState :=
  if s.is_playback_unpaused then pause_audio s else unpause_audio s

/-- One user-issued pause-family command. -/
inductive PauseOp
  | pause
  | unpause
  | toggle
deriving DecidableEq

/-- Apply one pause-family command. -/
def applyPauseOp (s : PState) (op : PauseOp) : PState :=
  match op with
  | .pause => pause_audio s
  | .unpause => unpause_audio s
  | .toggle => toggle_pause s

/-- Apply a sequence of pause-family commands, first element first. -/
def applyPauseOps (ops : List PauseOp) (s : PState) : PState :=
  ops.foldl applyPauseOp s

/-- Where, if anywhere, an exception is raised inside the body of the
stream thread `start_audio_stream_thread` (lines 132-180).
`pyaudioInitFail`: `pyaudio.PyAudio()` itself raises (line 134), so the
local name `p` is never bound. `streamFail`: an exception after the sound
file opened (device open, callback chain, ...). File-open failure is
modelled by the metadata map returning `none` for the path. -/
inductive FailPoint
  | noFail
  | pyaudioInitFail
  | streamFail
deriving DecidableEq

/-- Result of running the stream thread to completion: the final attribute
state, whether an exception propagated out of the thread body, and whether
`p.terminate()` was executed. -/
structure ThreadOut where
  state : PState
  raised : Bool
  deviceTerminated : Bool
deriving DecidableEq

/-- Embeds `start_audio_stream_thread` (lines 132-180) run to completion, as a
state transformer.  `fs` maps a path to the `(samplerate, frames)` metadata
`sf.info` would report, `none` meaning `sf.SoundFile` raises for that path.
Control flow of the source:
- line 134 `p = pyaudio.PyAudio()` is INSIDE the `try:`; if it raises, the
  `finally:` block (line 176) starts with `p.terminate()`, which raises
  `NameError` because `p` was never bound, so `no_audio_loaded.set()` and
  the `current_frame = 0` reset (lines 178-180) are skipped;
- if the sound file fails to open (line 135), or any later exception, or a
  normal exit of the `with` block, the `finally:` block runs in full:
  terminate the device, set `no_audio_loaded`, reset `current_frame` to 0;
- on a successful open, lines 137-138 store the file's sample rate and
  frame count before the stream runs. -/
def start_audio_stream_thread (fs : Option Nat → Option (Nat × Nat))
    (fail : FailPoint) (s : PState) : ThreadOut :=
  match fail with
  | .pyaudioInitFail => ⟨s, true, false⟩
  | fail =>
    match fs s.audio_path with
    | none => ⟨{ s with no_audio_loaded := true, current_frame := 0 }, true, true⟩
    | some (sr, fr) =>
      let s1 := { s with audio_sample_rate := sr, audio_frames := fr }
      ⟨{ s1 with no_audio_loaded := true, current_frame := 0 },
        fail = FailPoint.streamFail, true⟩

/-- The sequential, caller-side effect of `start_audio_playback` on the
stored attributes (lines 117-130), after the wait on `no_audio_loaded` has
returned and before the new stream thread is spawned: the stop event ends
cleared (set line 117, cleared line 130), the unpaused event is restored to
its entry value (set line 120, restored lines 124-125), `audio_path` is
replaced only when the argument is not `None` (lines 126-127), and
`no_audio_loaded` is cleared (line 129).  The interleaving of these steps
with the previous stream is the transition system `c1step` below. -/
def start_audio_playback_state (audio_path : Option Nat) (s : PState) : PState :=
  { s with
    audio_path := match audio_path with | some p => some p | none => s.audio_path
    no_audio_loaded := false
    is_stopped := false }

/-! ### The start-while-paused handshake as an interleaving transition system

`start_audio_playback` is called while a previous stream is active and
paused: the old stream's callback is parked at `is_playback_unpaused.wait()`
(line 141).  The controller thread runs lines 117-130 and spawns the new
stream (lines 181-182); the old stream, once woken, checks `is_stopped`
(line 142), returns `paComplete` (line 143), and its `finally:` cleanup
(lines 176-180) sets `no_audio_loaded` and zeroes `current_frame`.  Each
atomic action of either thread is one transition. -/

/-- Joint state of the controller thread (executing `start_audio_playback`)
and the previous, paused stream thread.  `ctrl` program counter:
0 = before line 117 (`is_stopped.set()`), 1 = before line 119 (read
`is_playback_unpaused.is_set()` into the local `is_unpaused`), 2 = before
line 120 (`is_playback_unpaused.set()`), 3 = blocked at line 122
(`no_audio_loaded.wait()`), 4 = before lines 124-125 (restore pause state),
5 = before lines 126-129 (install path, `no_audio_loaded.clear()`),
6 = before line 130 (`is_stopped.clear()`), 7 = before lines 181-182
(spawn new stream), 8 = returned.  `strm` program counter of the old
stream: 0 = callback parked at line 141 (`is_playback_unpaused.wait()`),
1 = before line 142 (check `is_stopped`), 2 = callback returned
`paComplete`, cleanup pending, 3 = `p.terminate()` and
`no_audio_loaded.set()` done (lines 177-178), the locked
`current_frame = 0` (lines 179-180) still pending — the source sets the
event BEFORE zeroing the cursor, so these are separate transitions —
4 = cleanup done, thread exited.  `frameZero` abstracts `current_frame`:
whether it equals 0. -/
structure C1State where
  stopped : Bool
  unpaused : Bool
  noAudio : Bool
  frameZero : Bool
  saved : Bool
  ctrl : Nat
  strm : Nat
deriving DecidableEq

/-- Transitions of the controller thread (lines 117-130, 181-182 of
`start_audio_playback`).  Waiting on an event yields no transition while
the event is cleared. -/
def c1ctrlStep (s : C1State) : List C1State :=
  match s.ctrl with
  | 0 => [{ s with stopped := true, ctrl := 1 }]
  | 1 => [{ s with saved := s.unpaused, ctrl := 2 }]
  | 2 => [{ s with unpaused := true, ctrl := 3 }]
  | 3 => if s.noAudio then [{ s with ctrl := 4 }] else []
  | 4 => [{ s with unpaused := if s.saved then s.unpaused else false, ctrl := 5 }]
  | 5 => [{ s with noAudio := false, ctrl := 6 }]
  | 6 => [{ s with stopped := false, ctrl := 7 }]
  | 7 => [{ s with ctrl := 8 }]
  | _ => []

/-- Transitions of the old stream thread: the parked callback (lines
141-143) and the `finally:` cleanup (lines 176-180).  If the stop event is
not set when the callback wakes, it produces a chunk and the next callback
parks at the wait again (back edge to 0).  The cleanup is two transitions
because the source sets `no_audio_loaded` (line 178) before zeroing
`current_frame` (lines 179-180). -/
def c1strmStep (s : C1State) : List C1State :=
  match s.strm with
  | 0 => if s.unpaused then [{ s with strm := 1 }] else []
  | 1 => if s.stopped then [{ s with strm := 2 }] else [{ s with strm := 0 }]
  | 2 => [{ s with noAudio := true, strm := 3 }]
  | 3 => [{ s with frameZero := true, strm := 4 }]
  | _ => []

/-- All interleaved transitions. -/
def c1step (s : C1State) : List C1State :=
  c1ctrlStep s ++ c1strmStep s

/-- Initial state of the scenario: a previous stream is active
(`no_audio_loaded` cleared) and paused (`is_playback_unpaused` cleared,
callback parked at the wait), the stop event is clear, and the controller
is about to execute line 117.  `b` is the initial value of the
`current_frame = 0` abstraction (the paused cursor may or may not be 0). -/
def c1init (b : Bool) : C1State :=
  { stopped := false, unpaused := false, noAudio := false, frameZero := b,
    saved := true, ctrl := 0, strm := 0 }

/-- One closure round of the successor relation over a work list. -/
def c1stepAll (l : List C1State) : List C1State :=
  (l ++ l.flatMap c1step).dedup

/-- All states reachable from either initial state, computed by iterating
the closure round to a fixed point (12 rounds more than suffice: each
thread's program counter advances at most 11 times in total). -/
def c1reach : List C1State :=
  c1stepAll^[12] [c1init false, c1init true]

/-- Holds when `s` is reachable from `a` by interleaved transitions. -/
def C1Reachable (a s : C1State) : Prop :=
  Relation.ReflTransGen (fun x y => y ∈ c1step x) a s

/-- Variant function: strictly decreases along every transition out of a
reachable state, so no execution of the handshake runs forever. -/
def c1var (s : C1State) : Nat :=
  (8 - s.ctrl) + (4 - s.strm)

/-! ### The real-valued signal path

Exact-real embedding of the numpy / pyloudnorm float arithmetic of the
callback (lines 140-164) and of `find_target_loudness` (lines 78-105).
Audio chunks are lists of samples.  The external loudness meter
`pyln.Meter(sample_rate, block_size=...).integrated_loudness` is an
abstract parameter `meter : List ℝ → ℝ`. -/

noncomputable section

/-- Arithmetic mean of a list, as `numpy` computes it (`np.mean`; on the
empty list the quotient is `0/0 = 0` in Lean). -/
def npMean (xs : List ℝ) : ℝ :=
  xs.sum / xs.length

/-- Population standard deviation, the semantics of `np.std`. -/
def npStd (xs : List ℝ) : ℝ :=
  Real.sqrt (npMean (xs.map fun x => (x - npMean xs) ^ 2))

/-- Peak amplitude `np.max(np.abs(data))` (pyloudnorm's `normalize.peak`
computes it this way; on an empty list numpy raises, our fold yields 0 and
the empty case is excluded by hypotheses wherever it matters). -/
def npMaxAbs (data : List ℝ) : ℝ :=
  (data.map fun x => |x|).foldr max 0

/-- Embeds `pyln.normalize.peak(data, target)`: scale every sample by
`gain = 10**(target/20) / np.max(np.abs(data))`. -/
def normalize_peak (data : List ℝ) (target : ℝ) : List ℝ :=
  data.map fun x => (10 : ℝ) ^ (target / 20) / npMaxAbs data * x

/-- Embeds the blend `pyln.normalize.peak(data, target)*0.9 + 0.1*data` of
lines 160 and 163, elementwise over the chunk. -/
def peakBlend (data : List ℝ) (target : ℝ) : List ℝ :=
  (normalize_peak data target).zipWith (fun a b => a * 0.9 + 0.1 * b) data

/-- Embeds line 95 of `find_target_loudness`: the measured integrated
loudness clamped by `max(min(·, 0), -input_range)`. -/
def loudness_point_of (measured input_range : ℝ) : ℝ :=
  max (min measured 0) (-input_range)

/-- Embeds lines 96-98 of `find_target_loudness`: the power-law map from
the clamped loudness point to a loudness target. -/
def loudness_point_target_loudness_of (loudness_point input_range target_dynamic_range
    loudness_compression_factor loudness_upper_limit : ℝ) : ℝ :=
  ((target_dynamic_range - loudness_upper_limit) / target_dynamic_range) *
      target_dynamic_range *
      ((loudness_point + input_range) ^ (1 / loudness_compression_factor)) *
      ((input_range - 1) ^ ((-1) / loudness_compression_factor)) -
    target_dynamic_range

/-- Embeds line 102 of `find_target_loudness`: the standard-deviation
multiplier
`(1-std__compression_max)*(audio_std**std_compression_factor)*expected_std_max**(-std_compression_factor) + std__compression_max`. -/
def audio_std_target_loudness_of (audio_std std__compression_max std_compression_factor
    expected_std_max : ℝ) : ℝ :=
  (1 - std__compression_max) * audio_std ^ std_compression_factor *
      expected_std_max ^ (-std_compression_factor) +
    std__compression_max

/-- Embeds `AudioPlayer.find_target_loudness` (lines 78-105) with explicit
parameters; `meter audio_data` stands for the external
`pyln.Meter(...).integrated_loudness(audio_data)` measurement. -/
def find_target_loudness_params (meter : List ℝ → ℝ) (audio_data : List ℝ)
    (input_range target_dynamic_range loudness_compression_factor loudness_upper_limit
      std__compression_max std_compression_factor expected_std_max : ℝ) : ℝ :=
  let loudness_point := loudness_point_of (meter audio_data) input_range
  let loudness_point_target_loudness := loudness_point_target_loudness_of loudness_point
    input_range target_dynamic_range loudness_compression_factor loudness_upper_limit
  let audio_std := npStd (audio_data.map fun x => |x|)
  let audio_std_target_loudness := audio_std_target_loudness_of audio_std
    std__compression_max std_compression_factor expected_std_max
  min (loudness_point_target_loudness * audio_std_target_loudness) 0

/-- Embeds `find_target_loudness` at the default argument values of the
source: `input_range=70, target_dynamic_range=50,
loudness_compression_factor=1, loudness_upper_limit=10,
std__compression_max=0.975, std_compression_factor=0.8,
expected_std_max=3.5` — the way the callback calls it (line 149). -/
def find_target_loudness (meter : List ℝ → ℝ) (audio_data : List ℝ) : ℝ :=
  find_target_loudness_params meter audio_data 70 50 1 10 0.975 0.8 3.5

/-- Embeds the in-place zero fix `data[data == 0] = 1e-12` (lines 151 and
159). -/
def zeroSubstitute (data : List ℝ) : List ℝ :=
  data.map fun x => if x = 0 then 1e-12 else x

/-- Window read `file.seek(pos); file.read(frames=n)`: the `n` frames of
the file starting at `pos` (fewer near the end of the file). -/
def fileWindow (fileData : List ℝ) (pos : ℤ) (n : Nat) : List ℝ :=
  (fileData.drop pos.toNat).take n

/-- Python slice `xs[::k]`: every `k`-th element starting at index 0. -/
def sliceStep (k : Nat) (xs : List ℝ) : List ℝ :=
  (xs.enum.filter fun p => p.1 % k = 0).map Prod.snd

/-- One step of the callback body, recorded in order of execution for the
ordering claims about the streaming normalizer. -/
inductive CbStep
  | waitUnpaused
  | stopCheck
  | seekAdvanceRead
  | targetLoudness
  | zeroSubst
  | emptyCheck
  | normalizeBlendReturn
deriving DecidableEq

/-- Status returned by the callback to the device: parked at the pause
wait, `pyaudio.paComplete`, or `pyaudio.paContinue` with an output
buffer. -/
inductive CbResult
  | blocked
  | complete
  | continue_playback (out : List ℝ)

/-- Observable effect of one callback invocation: the status, the new
`current_frame`, the new display buffer (`none` = unchanged), and the
ordered trace of executed steps. -/
structure CbOut where
  result : CbResult
  current_frame : ℤ
  display_frame_data : Option (List ℝ)
  trace : List CbStep

/-- Embeds the stream callback (lines 140-164) as a pure function of the
attribute state `s`, the decoded file `fileData` and the requested
`frame_count`.  Faithful control flow of the source:
- line 141: park while `is_playback_unpaused` is cleared;
- lines 142-143: if `is_stopped` is set, return `paComplete`;
- lines 146-148 (under the lock): seek to `current_frame`, advance
  `current_frame` by `frame_count`, read up to `frame_count` frames;
- line 149: compute the target loudness of the chunk — BEFORE the zero
  substitution and before the empty-read check;
- line 151: replace exact zeros by `1e-12`;
- lines 152-153: if the read was empty, return `paComplete`;
- lines 155-162: if the window is focused, read ahead
  `display_frame_chunk_ratio*frame_count` frames (from the file position
  left by the first read), slice by `display_skip_rate`, zero-fix,
  peak-normalize/blend with the SAME target loudness; a `ValueError`
  (peak of an empty read-ahead) is swallowed and the buffer not updated;
- lines 163-164: peak-normalize/blend the chunk and return it times
  `volume` with `paContinue`. -/
def callback (meter : List ℝ → ℝ) (fileData : List ℝ) (frame_count : Nat)
    (s : PState) : CbOut :=
  if s.is_playback_unpaused = false then
    ⟨CbResult.blocked, s.current_frame, none, [CbStep.waitUnpaused]⟩
  else if s.is_stopped then
    ⟨CbResult.complete, s.current_frame, none, [CbStep.waitUnpaused, CbStep.stopCheck]⟩
  else
    let data := fileWindow fileData s.current_frame frame_count
    let newFrame := s.current_frame + frame_count
    let target_loudness := find_target_loudness meter data
    let data1 := zeroSubstitute data
    if data1.length = 0 then
      ⟨CbResult.complete, newFrame, none,
        [CbStep.waitUnpaused, CbStep.stopCheck, CbStep.seekAdvanceRead,
          CbStep.targetLoudness, CbStep.zeroSubst, CbStep.emptyCheck]⟩
    else
      let display :=
        if s.is_window_focused then
          let dd := fileWindow fileData (s.current_frame + data.length)
            (s.display_frame_chunk_factor * frame_count)
          let dd1 := sliceStep s.display_skip_rate dd
          let dd2 := zeroSubstitute dd1
          if dd2.length = 0 then none else some (peakBlend dd2 target_loudness)
        else none
      let normalized_data := peakBlend data1 target_loudness
      ⟨CbResult.continue_playback (normalized_data.map fun x => x * ((s.volume : ℚ) : ℝ)),
        newFrame, display,
        [CbStep.waitUnpaused, CbStep.stopCheck, CbStep.seekAdvanceRead,
          CbStep.targetLoudness, CbStep.zeroSubst, CbStep.emptyCheck,
          CbStep.normalizeBlendReturn]⟩

end

/-! ### Shared concrete states for witnesses and counterexamples -/

/-- A player state mid-playback of a loaded 1000-frame file, cursor at the
start, playing (unpaused, not stopped), visualizer hidden. -/
def sampleState : PState :=
  { volume := 1
    normalization_max := -3
    normalization_min := -20
    normalization_bias := 1/8
    audio_path := some 1
    audio_channels := 2
    audio_frames := 1000
    audio_sample_rate := 44100
    is_playback_unpaused := true
    is_stopped := false
    no_audio_loaded := false
    is_window_focused := false
    display_skip_rate := 1
    display_frame_chunk_factor := 50
    current_frame := 0 }

/-- A player state mid-playback with a nonzero cursor, used to observe
which fields a stream exit does and does not reset. -/
def midPlaybackState : PState :=
  { sampleState with current_frame := 480000 }

/-! ### Theorems -/

set_option maxRecDepth 10000 in
theorem c1reach_closed : ∀ s ∈ c1reach, ∀ t ∈ c1step s, t ∈ c1reach := by decide

theorem c1init_mem (b : Bool) : c1init b ∈ c1reach := by cases b <;> decide

theorem mem_c1reach_of_reachable (b : Bool) (s : C1State)
    (h : C1Reachable (c1init b) s) : s ∈ c1reach := by
  induction h with
  | refl => exact c1init_mem b
  | tail _ h2 ih => exact c1reach_closed _ ih _ h2

set_option maxRecDepth 10000 in
theorem c1reach_var_dec : ∀ s ∈ c1reach, ∀ t ∈ c1step s, c1var t < c1var s := by
  decide

set_option maxRecDepth 10000 in
theorem c1reach_terminal : ∀ s ∈ c1reach, c1step s = [] →
    s.ctrl = 8 ∧ s.strm = 4 ∧ s.frameZero = true ∧ s.unpaused = false ∧
    s.stopped = false ∧ s.noAudio = false := by decide

set_option maxRecDepth 10000 in
theorem c1reach_wait_point : ∀ s ∈ c1reach, s.ctrl = 3 →
    s.stopped = true ∧ s.unpaused = true := by decide

set_option maxRecDepth 10000 in
theorem c1reach_restore_after_exit : ∀ s ∈ c1reach, 4 ≤ s.ctrl → 3 ≤ s.strm := by
  decide

/-- Prepend one transition to a reachability derivation. -/
theorem c1reach_cons (b : C1State) {a c : C1State} (h1 : b ∈ c1step a)
    (h2 : C1Reachable b c) : C1Reachable a c :=
  Relation.ReflTransGen.head h1 h2

/-- C1: a `start_audio_playback` call made while a previous stream is
active and paused first signals stop and forces the unpaused event set
before blocking at the `no_audio_loaded` wait (at the wait point, both
`stopped` and `unpaused` hold), restores the paused state only after the
prior stream has signalled its exit through `no_audio_loaded` (once the
controller is past the wait, the old stream has at least terminated the
device and set the event), and every execution of the handshake terminates
(no infinite interleaving, and every stuck state is the fully completed
one) with `current_frame = 0` and the original paused state restored at
the moment the new stream is spawned. -/
theorem start_while_paused_completes (b : Bool) :
    (∀ s : C1State, C1Reachable (c1init b) s → c1step s = [] →
      s.ctrl = 8 ∧ s.strm = 4 ∧ s.frameZero = true ∧ s.unpaused = false ∧
        s.stopped = false ∧ s.noAudio = false) ∧
    (∀ s : C1State, C1Reachable (c1init b) s → s.ctrl = 3 →
      s.stopped = true ∧ s.unpaused = true) ∧
    (∀ s : C1State, C1Reachable (c1init b) s → 4 ≤ s.ctrl → 3 ≤ s.strm) ∧
    (∀ f : ℕ → C1State, f 0 = c1init b → (∀ n, f (n + 1) ∈ c1step (f n)) → False) := by
  refine ⟨?_, ?_, ?_, ?_⟩
  · intro s hs hterm
    exact c1reach_terminal s (mem_c1reach_of_reachable b s hs) hterm
  · intro s hs h3
    exact c1reach_wait_point s (mem_c1reach_of_reachable b s hs) h3
  · intro s hs h4
    exact c1reach_restore_after_exit s (mem_c1reach_of_reachable b s hs) h4
  · intro f hf0 hstep
    have hmem : ∀ n, f n ∈ c1reach := by
      intro n
      induction n with
      | zero => rw [hf0]; exact c1init_mem b
      | succ n ih => exact c1reach_closed _ ih _ (hstep n)
    have hbound : ∀ n, c1var (f n) + n ≤ c1var (f 0) := by
      intro n
      induction n with
      | zero => omega
      | succ n ih =>
          have hd := c1reach_var_dec _ (hmem n) _ (hstep n)
          omega
    have := hbound (c1var (f 0) + 1)
    omega

/-- Witness for C1: an explicit maximal execution of the handshake from
the paused initial state reaches the completed state with
`current_frame = 0` and the pause restored. -/
theorem start_while_paused_completes_witness :
    ({ stopped := false, unpaused := false, noAudio := false, frameZero := true,
        saved := false, ctrl := 8, strm := 4 } : C1State).frameZero = true ∧
    ({ stopped := false, unpaused := false, noAudio := false, frameZero := true,
        saved := false, ctrl := 8, strm := 4 } : C1State).unpaused = false := by
  have hr : C1Reachable (c1init false)
      ⟨false, false, false, true, false, 8, 4⟩ :=
    c1reach_cons ⟨true, false, false, false, true, 1, 0⟩ (by decide)
      (c1reach_cons ⟨true, false, false, false, false, 2, 0⟩ (by decide)
        (c1reach_cons ⟨true, true, false, false, false, 3, 0⟩ (by decide)
          (c1reach_cons ⟨true, true, false, false, false, 3, 1⟩ (by decide)
            (c1reach_cons ⟨true, true, false, false, false, 3, 2⟩ (by decide)
              (c1reach_cons ⟨true, true, true, false, false, 3, 3⟩ (by decide)
                (c1reach_cons ⟨true, true, true, true, false, 3, 4⟩ (by decide)
                  (c1reach_cons ⟨true, true, true, true, false, 4, 4⟩ (by decide)
                    (c1reach_cons ⟨true, false, true, true, false, 5, 4⟩ (by decide)
                      (c1reach_cons ⟨true, false, false, true, false, 6, 4⟩ (by decide)
                        (c1reach_cons ⟨false, false, false, true, false, 7, 4⟩ (by decide)
                          (c1reach_cons ⟨false, false, false, true, false, 8, 4⟩ (by decide)
                            Relation.ReflTransGen.refl)))))))))))
  have h := (start_while_paused_completes false).1 _ hr (by decide)
  exact ⟨h.2.2.1, h.2.2.2.1⟩

/-- C2 (counterexample): `seek(1500, percentage=False)` on a state with
`total_frames = 1000` stores `1500`, not the claimed clamp to `1000`; the
cursor then violates `current_frame ≤ total_frames`. -/
theorem seek_does_not_clamp :
    (seek 1500 false sampleState).current_frame = 1500 ∧
    ¬(seek 1500 false sampleState).current_frame = 1000 ∧
    ¬(seek 1500 false sampleState).current_frame ≤ (sampleState.audio_frames : ℤ) := by
  norm_num [seek, sampleState, pyInt]

/-- C2 (amended): once a file is loaded, `seek` stores the truncated
position WITHOUT clamping — percentage mode stores
`int(total_frames*position)` (so `seek(0.5, True)` with 1000 frames gives
500), direct mode stores `int(position)` verbatim — and the callback
advances `current_frame` by `frame_count` unconditionally, so the cursor
can move past `total_frames`; the invariant
`0 ≤ current_frame ≤ total_frames` is not maintained. -/
theorem seek_and_callback_move_cursor_unclamped :
    ((seek (1/2) true sampleState).current_frame = 500) ∧
    (∀ (s : PState) (p : ℚ), 0 < s.audio_frames →
      (seek p false s).current_frame = pyInt p) ∧
    (∀ (s : PState) (p : ℚ), 0 < s.audio_frames →
      (seek p true s).current_frame = pyInt ((s.audio_frames : ℚ) * p)) ∧
    (∀ (meter : List ℝ → ℝ) (fileData : List ℝ) (n : Nat) (s : PState),
      s.is_playback_unpaused = true → s.is_stopped = false →
      (callback meter fileData n s).current_frame = s.current_frame + n) := by
  refine ⟨by norm_num [seek, sampleState, pyInt], ?_, ?_, ?_⟩
  · intro s p h
    simp [seek, h]
  · intro s p h
    simp [seek, h]
  · intro meter fileData n s h1 h2
    simp only [callback, h1, h2]
    by_cases hlen : (zeroSubstitute (fileWindow fileData s.current_frame n)).length = 0 <;>
      simp [hlen]

/-- Witness for C2 (amended): the hypotheses hold at concrete inputs. -/
theorem seek_and_callback_move_cursor_unclamped_witness :
    (seek 1500 false sampleState).current_frame = pyInt 1500 ∧
    (seek (3/2) true sampleState).current_frame = pyInt ((sampleState.audio_frames : ℚ) * (3/2)) ∧
    (callback (fun _ => 0) [1] 4 sampleState).current_frame = sampleState.current_frame + 4 :=
  ⟨seek_and_callback_move_cursor_unclamped.2.1 sampleState 1500 (by decide),
    seek_and_callback_move_cursor_unclamped.2.2.1 sampleState (3/2) (by decide),
    seek_and_callback_move_cursor_unclamped.2.2.2 (fun _ => 0) [1] 4 sampleState rfl rfl⟩

/-- C3 (counterexample): after a stream exits normally (the point where
`no_audio_loaded` becomes set and a next load can proceed), `audio_path`,
`audio_sample_rate` and `audio_frames` still hold the values of the file
just played — they are not reset to zero/none. -/
theorem stream_exit_leaves_file_fields :
    (start_audio_stream_thread (fun _ => some (48000, 2222)) FailPoint.noFail
        midPlaybackState).state.no_audio_loaded = true ∧
    (start_audio_stream_thread (fun _ => some (48000, 2222)) FailPoint.noFail
        midPlaybackState).state.audio_frames = 2222 ∧
    ¬(start_audio_stream_thread (fun _ => some (48000, 2222)) FailPoint.noFail
        midPlaybackState).state.audio_frames = 0 ∧
    (start_audio_stream_thread (fun _ => some (48000, 2222)) FailPoint.noFail
        midPlaybackState).state.audio_sample_rate = 48000 ∧
    ¬(start_audio_stream_thread (fun _ => some (48000, 2222)) FailPoint.noFail
        midPlaybackState).state.audio_path = none := by
  decide

/-- C3 (amended): on a stream end or error (other than a failure of the
device-handle construction itself), only `current_frame` is reset (to 0)
and `no_audio_loaded` is set; `audio_path` is left unchanged, and
`audio_sample_rate` / `audio_frames` keep the just-played file's metadata
until the next load overwrites them. -/
theorem stream_exit_resets_only_cursor (fs : Option Nat → Option (Nat × Nat))
    (fail : FailPoint) (s : PState) (h : ¬fail = FailPoint.pyaudioInitFail) :
    (start_audio_stream_thread fs fail s).state.current_frame = 0 ∧
    (start_audio_stream_thread fs fail s).state.no_audio_loaded = true ∧
    (start_audio_stream_thread fs fail s).state.audio_path = s.audio_path ∧
    (∀ sr fr : Nat, fs s.audio_path = some (sr, fr) →
      (start_audio_stream_thread fs fail s).state.audio_sample_rate = sr ∧
      (start_audio_stream_thread fs fail s).state.audio_frames = fr) := by
  cases fail with
  | pyaudioInitFail => exact absurd rfl h
  | noFail =>
      rcases hfs : fs s.audio_path with _ | ⟨sr, fr⟩ <;>
        simp [start_audio_stream_thread, hfs]
  | streamFail =>
      rcases hfs : fs s.audio_path with _ | ⟨sr, fr⟩ <;>
        simp [start_audio_stream_thread, hfs]

/-- Witness for C3 (amended): concrete exit of a stream over a 2222-frame
file. -/
theorem stream_exit_resets_only_cursor_witness :
    (start_audio_stream_thread (fun _ => some (48000, 2222)) FailPoint.noFail
        sampleState).state.current_frame = 0 ∧
    (start_audio_stream_thread (fun _ => some (48000, 2222)) FailPoint.noFail
        sampleState).state.no_audio_loaded = true ∧
    (start_audio_stream_thread (fun _ => some (48000, 2222)) FailPoint.noFail
        sampleState).state.audio_path = sampleState.audio_path ∧
    (start_audio_stream_thread (fun _ => some (48000, 2222)) FailPoint.noFail
        sampleState).state.audio_sample_rate = 48000 ∧
    (start_audio_stream_thread (fun _ => some (48000, 2222)) FailPoint.noFail
        sampleState).state.audio_frames = 2222 := by
  have h := stream_exit_resets_only_cursor (fun _ => some (48000, 2222))
    FailPoint.noFail sampleState (by decide)
  exact ⟨h.1, h.2.1, h.2.2.1, (h.2.2.2 48000 2222 rfl).1, (h.2.2.2 48000 2222 rfl).2⟩

/-- C6 (counterexample): if `pyaudio.PyAudio()` itself raises (line 134),
the `finally:` block dies at `p.terminate()` (`p` is unbound), so the
device is not terminated, `no_audio_loaded` stays cleared and
`current_frame` keeps its value — cleanup does NOT run on this exit. -/
theorem device_init_failure_skips_cleanup :
    (start_audio_stream_thread (fun _ => some (44100, 1000)) FailPoint.pyaudioInitFail
        midPlaybackState).state.no_audio_loaded = false ∧
    (start_audio_stream_thread (fun _ => some (44100, 1000)) FailPoint.pyaudioInitFail
        midPlaybackState).state.current_frame = 480000 ∧
    (start_audio_stream_thread (fun _ => some (44100, 1000)) FailPoint.pyaudioInitFail
        midPlaybackState).deviceTerminated = false ∧
    (start_audio_stream_thread (fun _ => some (44100, 1000)) FailPoint.pyaudioInitFail
        midPlaybackState).raised = true := by
  decide

/-- C6 (amended): on every exit of the streaming task — natural
end-of-stream, explicit stop, file-open failure, or an exception raised
after the device handle was created — cleanup runs: the device handle is
terminated, `no_audio_loaded` becomes set and `current_frame` is reset to
0; the one exception is a failure of the device-handle construction
itself, where the `finally:` block fails before any cleanup. -/
theorem cleanup_runs_unless_device_init_raises (fs : Option Nat → Option (Nat × Nat))
    (fail : FailPoint) (s : PState) (h : ¬fail = FailPoint.pyaudioInitFail) :
    (start_audio_stream_thread fs fail s).deviceTerminated = true ∧
    (start_audio_stream_thread fs fail s).state.no_audio_loaded = true ∧
    (start_audio_stream_thread fs fail s).state.current_frame = 0 := by
  cases fail with
  | pyaudioInitFail => exact absurd rfl h
  | noFail =>
      rcases hfs : fs s.audio_path with _ | ⟨sr, fr⟩ <;>
        simp [start_audio_stream_thread, hfs]
  | streamFail =>
      rcases hfs : fs s.audio_path with _ | ⟨sr, fr⟩ <;>
        simp [start_audio_stream_thread, hfs]

/-- Witness for C6 (amended): cleanup after an exception raised inside the
stream body (after the device handle existed). -/
theorem cleanup_runs_unless_device_init_raises_witness :
    (start_audio_stream_thread (fun _ => none) FailPoint.streamFail
        midPlaybackState).deviceTerminated = true ∧
    (start_audio_stream_thread (fun _ => none) FailPoint.streamFail
        midPlaybackState).state.no_audio_loaded = true ∧
    (start_audio_stream_thread (fun _ => none) FailPoint.streamFail
        midPlaybackState).state.current_frame = 0 :=
  cleanup_runs_unless_device_init_raises (fun _ => none) FailPoint.streamFail
    midPlaybackState (by decide)

/-- C7 (counterexample): the constructor stores its `volume` argument
without clamping (line 48), so `AudioPlayer(volume=5)` leaves `volume = 5`
outside `[0, 1]`. -/
theorem init_volume_unclamped :
    (AudioPlayer_init_default_with_volume 5).volume = 5 ∧
    ¬(AudioPlayer_init_default_with_volume 5).volume ≤ 1 := by
  decide

/-- C7 (amended): `set_volume` clamps every argument into `[0, 1]`
(`set_volume(-1)` stores 0, `set_volume(5)` stores 1), so any volume that
went through `set_volume` is in range; but the constructor stores its
`volume` argument unclamped, so construction can leave `volume` outside
`[0, 1]`. -/
theorem set_volume_always_clamps :
    (∀ (s : PState) (v : ℚ),
      0 ≤ (set_volume v s).volume ∧ (set_volume v s).volume ≤ 1) ∧
    (∀ s : PState, (set_volume (-1) s).volume = 0) ∧
    (∀ s : PState, (set_volume 5 s).volume = 1) := by
  refine ⟨fun s v => ⟨le_min (le_max_left 0 v) zero_le_one, min_le_right _ 1⟩,
    fun s => ?_, fun s => ?_⟩ <;> norm_num [set_volume]

/-- With no file loaded, a single pause-family command is the identity. -/
theorem applyPauseOp_no_file (s : PState) (op : PauseOp) (h : s.audio_frames = 0) :
    applyPauseOp s op = s := by
  cases op <;> simp [applyPauseOp, pause_audio, unpause_audio, toggle_pause, h]

/-- With no file loaded, any sequence of pause-family commands is the
identity. -/
theorem applyPauseOps_no_file (ops : List PauseOp) (s : PState) (h : s.audio_frames = 0) :
    applyPauseOps ops s = s := by
  induction ops with
  | nil => rfl
  | cons op ops ih =>
      show List.foldl applyPauseOp s (op :: ops) = s
      rw [List.foldl_cons, applyPauseOp_no_file s op h]
      exact ih

/-- C9: with no file loaded (`audio_frames = 0`) every sequence of
`pause`/`unpause`/`toggle_pause` calls leaves the unpaused event
unchanged, and `pause` twice is the same as `pause` once on any state. -/
theorem pause_ops_no_file_and_idempotent :
    (∀ (s : PState) (ops : List PauseOp), s.audio_frames = 0 →
      (applyPauseOps ops s).is_playback_unpaused = s.is_playback_unpaused) ∧
    (∀ s : PState, pause_audio (pause_audio s) = pause_audio s) := by
  constructor
  · intro s ops h
    rw [applyPauseOps_no_file ops s h]
  · intro s
    by_cases h : s.audio_frames > 0 <;> simp [pause_audio, h]

/-- Witness for C9: a concrete unloaded player and command sequence. -/
theorem pause_ops_no_file_witness :
    (applyPauseOps [PauseOp.pause, PauseOp.toggle, PauseOp.unpause]
        (AudioPlayer_init_default_with_volume 1)).is_playback_unpaused =
      (AudioPlayer_init_default_with_volume 1).is_playback_unpaused :=
  pause_ops_no_file_and_idempotent.1 (AudioPlayer_init_default_with_volume 1)
    [PauseOp.pause, PauseOp.toggle, PauseOp.unpause] rfl

/-- C10: calling `start_audio_playback` with `audio_path = None` leaves
the stored `audio_path` unchanged, so after the prior stream's exit
(which zeroed `current_frame`) the state handed to the spawned stream has
the previous file's path and `current_frame = 0`, and the new stream opens
that file without error: start with `None` restarts the current file. -/
theorem start_with_none_replays_current_file (s : PState)
    (fs : Option Nat → Option (Nat × Nat)) (sr fr : Nat)
    (hmeta : fs s.audio_path = some (sr, fr)) :
    (start_audio_playback_state none
        (start_audio_stream_thread fs FailPoint.noFail s).state).audio_path =
      s.audio_path ∧
    (start_audio_playback_state none
        (start_audio_stream_thread fs FailPoint.noFail s).state).current_frame = 0 ∧
    (start_audio_stream_thread fs FailPoint.noFail
        (start_audio_playback_state none
          (start_audio_stream_thread fs FailPoint.noFail s).state)).raised = false := by
  refine ⟨?_, ?_, ?_⟩ <;>
    simp [start_audio_stream_thread, start_audio_playback_state, hmeta]

/-- Witness for C10: concrete restart of the current file. -/
theorem start_with_none_replays_current_file_witness :
    (start_audio_playback_state none
        (start_audio_stream_thread (fun _ => some (44100, 1000)) FailPoint.noFail
          sampleState).state).audio_path = sampleState.audio_path ∧
    (start_audio_playback_state none
        (start_audio_stream_thread (fun _ => some (44100, 1000)) FailPoint.noFail
          sampleState).state).current_frame = 0 ∧
    (start_audio_stream_thread (fun _ => some (44100, 1000)) FailPoint.noFail
        (start_audio_playback_state none
          (start_audio_stream_thread (fun _ => some (44100, 1000)) FailPoint.noFail
            sampleState).state)).raised = false :=
  start_with_none_replays_current_file sampleState (fun _ => some (44100, 1000))
    44100 1000 rfl

/-- Peak amplitude of a chunk is nonnegative. -/
theorem npMaxAbs_nonneg (data : List ℝ) : 0 ≤ npMaxAbs data := by
  induction data with
  | nil => simp [npMaxAbs]
  | cons a l ih =>
      have he : npMaxAbs (a :: l) = max |a| (npMaxAbs l) := rfl
      rw [he]
      exact le_max_of_le_right ih

/-- Every sample's magnitude is at most the chunk's peak amplitude. -/
theorem abs_mem_le_npMaxAbs (data : List ℝ) (x : ℝ) (hx : x ∈ data) :
    |x| ≤ npMaxAbs data := by
  induction data with
  | nil => cases hx
  | cons a l ih =>
      have he : npMaxAbs (a :: l) = max |a| (npMaxAbs l) := rfl
      rw [he]
      rcases List.mem_cons.mp hx with h | h
      · rw [h]; exact le_max_left _ _
      · exact le_max_of_le_right (ih h)

/-- Pointwise description of a 90/10 blend of a uniformly scaled list with
the original. -/
theorem zipWith_map_blend (g : ℝ) (l : List ℝ) :
    ∀ p ∈ ((l.map fun x => g * x).zipWith (fun a b => a * 0.9 + 0.1 * b) l).zip l,
      p.1 = g * p.2 * 0.9 + 0.1 * p.2 := by
  induction l with
  | nil => intro p hp; cases hp
  | cons a l ih =>
      intro p hp
      simp only [List.map_cons, List.zipWith_cons_cons, List.zip_cons_cons] at hp
      rcases List.mem_cons.mp hp with h | h
      · rw [h]
      · exact ih p h

/-- Pointwise description of `peakBlend`: each output sample paired with
its raw sample satisfies the gain-blend formula. -/
theorem peakBlend_zip_eq (data : List ℝ) (t : ℝ) :
    ∀ p ∈ (peakBlend data t).zip data,
      p.1 = (10 : ℝ) ^ (t / 20) / npMaxAbs data * p.2 * 0.9 + 0.1 * p.2 :=
  zipWith_map_blend ((10 : ℝ) ^ (t / 20) / npMaxAbs data) data

/-- Magnitude bound for the peak-normalize/blend step: each output sample
exceeds the peak scale `10^(t/20)` by at most `0.1 * |raw sample|`. -/
theorem peakBlend_bound (data : List ℝ) (t : ℝ) (hM : 0 < npMaxAbs data) :
    ∀ p ∈ (peakBlend data t).zip data,
      |p.1| ≤ (10 : ℝ) ^ (t / 20) + 0.1 * |p.2| := by
  intro p hp
  have hq := peakBlend_zip_eq data t p hp
  have hmem : p.2 ∈ data := (List.of_mem_zip hp).2
  have habs : |p.2| ≤ npMaxAbs data := abs_mem_le_npMaxAbs data p.2 hmem
  have hP : (0 : ℝ) ≤ (10 : ℝ) ^ (t / 20) := Real.rpow_nonneg (by norm_num) _
  have hg : (0 : ℝ) ≤ (10 : ℝ) ^ (t / 20) / npMaxAbs data := div_nonneg hP hM.le
  rw [hq]
  have step1 : |(10 : ℝ) ^ (t / 20) / npMaxAbs data * p.2 * 0.9 + 0.1 * p.2| ≤
      |(10 : ℝ) ^ (t / 20) / npMaxAbs data * p.2 * 0.9| + |0.1 * p.2| := abs_add _ _
  have step2 : |(10 : ℝ) ^ (t / 20) / npMaxAbs data * p.2 * 0.9| =
      (10 : ℝ) ^ (t / 20) / npMaxAbs data * |p.2| * 0.9 := by
    rw [abs_mul, abs_mul, abs_of_nonneg hg]
    norm_num
  have step3 : |(0.1 : ℝ) * p.2| = 0.1 * |p.2| := by
    rw [abs_mul]
    norm_num
  have step4 : (10 : ℝ) ^ (t / 20) / npMaxAbs data * |p.2| ≤
      (10 : ℝ) ^ (t / 20) / npMaxAbs data * npMaxAbs data :=
    mul_le_mul_of_nonneg_left habs hg
  have step5 : (10 : ℝ) ^ (t / 20) / npMaxAbs data * npMaxAbs data = (10 : ℝ) ^ (t / 20) :=
    div_mul_cancel₀ _ (ne_of_gt hM)
  nlinarith [step1, step2, step3, step4, step5, hP, abs_nonneg p.2]

/-- Magnitude bound for the peak-normalize/blend step followed by a volume
factor in `[0, 1]`: the scaled output still exceeds the peak scale by at
most the 10% raw-blend contribution. -/
theorem peakBlend_scaled_bound (d : List ℝ) (t v : ℝ) (hM : 0 < npMaxAbs d)
    (hv0 : 0 ≤ v) (hv1 : v ≤ 1) :
    ∀ p ∈ (((peakBlend d t).map fun x => x * v).zip d),
      |p.1| ≤ (10 : ℝ) ^ (t / 20) + 0.1 * |p.2| := by
  intro p hp
  rw [List.zip_map_left] at hp
  rcases List.mem_map.mp hp with ⟨q, hq, hpq⟩
  have hb := peakBlend_bound d t hM q hq
  have h1 : p.1 = q.1 * v := by rw [← hpq]; rfl
  have h2 : p.2 = q.2 := by rw [← hpq]; rfl
  rw [h1, h2, abs_mul]
  have h3 : |v| ≤ 1 := by rw [abs_of_nonneg hv0]; exact hv1
  have h4 : |q.1| * |v| ≤ |q.1| * 1 := mul_le_mul_of_nonneg_left h3 (abs_nonneg _)
  calc |q.1| * |v| ≤ |q.1| := by linarith
    _ ≤ (10 : ℝ) ^ (t / 20) + 0.1 * |q.2| := hb

/-- C4 (counterexample): with the cursor past the end of the file the read
is empty, yet the callback's execution trace shows the target-loudness
computation happening BEFORE the zero-to-epsilon substitution and BEFORE
the empty-read check: the end-of-stream return does not occur "without the
target-loudness computation being applied to the empty chunk". -/
theorem empty_read_still_computes_loudness :
    (callback (fun _ => 0) [1] 2 { sampleState with current_frame := 5 }).trace =
      [CbStep.waitUnpaused, CbStep.stopCheck, CbStep.seekAdvanceRead,
        CbStep.targetLoudness, CbStep.zeroSubst, CbStep.emptyCheck] ∧
    (callback (fun _ => 0) [1] 2 { sampleState with current_frame := 5 }).result =
      CbResult.complete ∧
    (callback (fun _ => 0) [1] 2 { sampleState with current_frame := 5 }).trace.indexOf
        CbStep.targetLoudness <
      (callback (fun _ => 0) [1] 2 { sampleState with current_frame := 5 }).trace.indexOf
        CbStep.zeroSubst ∧
    (callback (fun _ => 0) [1] 2 { sampleState with current_frame := 5 }).trace.indexOf
        CbStep.targetLoudness <
      (callback (fun _ => 0) [1] 2 { sampleState with current_frame := 5 }).trace.indexOf
        CbStep.emptyCheck :=
  ⟨rfl, rfl, by decide, by decide⟩

/-- C4 (amended): in every callback invocation that passes the pause wait
and the stop check, the steps run in the source's order — windowed read,
then target-loudness computation, then zero-to-epsilon substitution, then
the empty-read check — and a read that produced zero frames returns an
end-of-stream signal (but only after `find_target_loudness` has been
invoked on the empty chunk). -/
theorem callback_step_order (meter : List ℝ → ℝ) (fileData : List ℝ) (n : Nat)
    (s : PState) (h1 : s.is_playback_unpaused = true) (h2 : s.is_stopped = false) :
    (callback meter fileData n s).trace.take 6 =
      [CbStep.waitUnpaused, CbStep.stopCheck, CbStep.seekAdvanceRead,
        CbStep.targetLoudness, CbStep.zeroSubst, CbStep.emptyCheck] ∧
    (fileWindow fileData s.current_frame n = [] →
      (callback meter fileData n s).result = CbResult.complete) := by
  constructor
  · by_cases hlen : (zeroSubstitute (fileWindow fileData s.current_frame n)).length = 0 <;>
      simp [callback, h1, h2, hlen]
  · intro hw
    have hlen : (zeroSubstitute (fileWindow fileData s.current_frame n)).length = 0 := by
      simp [zeroSubstitute, hw]
    simp [callback, h1, h2, hlen]

/-- Witness for C4 (amended): concrete playing state, 3-frame request on a
1-frame file. -/
theorem callback_step_order_witness :
    (callback (fun _ => 0) [1] 3 sampleState).trace.take 6 =
      [CbStep.waitUnpaused, CbStep.stopCheck, CbStep.seekAdvanceRead,
        CbStep.targetLoudness, CbStep.zeroSubst, CbStep.emptyCheck] ∧
    (fileWindow [1] sampleState.current_frame 3 = [] →
      (callback (fun _ => 0) [1] 3 sampleState).result = CbResult.complete) :=
  callback_step_order (fun _ => 0) [1] 3 sampleState rfl rfl

/-- C5 (counterexample): the chunk `[0, 14]` has amplitude standard
deviation 7 > `expected_std_max = 3.5`, and the standard-deviation
multiplier computed from it (line 102) exceeds 1 — it does not lie in
`[std_compression_max, 1]`. -/
theorem std_multiplier_exceeds_one :
    1 < audio_std_target_loudness_of (npStd (([0, 14] : List ℝ).map fun x => |x|))
      0.975 0.8 3.5 := by
  have hstd : npStd (([0, 14] : List ℝ).map fun x => |x|) = 7 := by
    have h1 : (([0, 14] : List ℝ).map fun x => |x|) = [0, 14] := by norm_num
    rw [h1]
    have h2 : npMean ([0, 14] : List ℝ) = 7 := by norm_num [npMean]
    unfold npStd
    rw [h2]
    have h3 : (([0, 14] : List ℝ).map fun x => (x - 7) ^ 2) = [49, 49] := by norm_num
    rw [h3]
    have h4 : npMean ([49, 49] : List ℝ) = 49 := by norm_num [npMean]
    rw [h4]
    rw [show (49 : ℝ) = 7 ^ 2 by norm_num]
    exact Real.sqrt_sq (by norm_num)
  rw [hstd]
  unfold audio_std_target_loudness_of
  have h5 : (7 : ℝ) ^ (0.8 : ℝ) * (3.5 : ℝ) ^ (-(0.8 : ℝ)) = (2 : ℝ) ^ (0.8 : ℝ) := by
    rw [Real.rpow_neg (by norm_num : (0 : ℝ) ≤ 3.5),
      ← Real.inv_rpow (by norm_num : (0 : ℝ) ≤ 3.5),
      ← Real.mul_rpow (by norm_num : (0 : ℝ) ≤ 7) (by positivity)]
    norm_num
  have h6 : (1 : ℝ) < (2 : ℝ) ^ (0.8 : ℝ) := by
    rw [Real.one_lt_rpow_iff_of_pos (by norm_num)]
    left; constructor <;> norm_num
  rw [mul_assoc, h5]
  linarith

/-- C5 (amended): at the default parameters, the measured integrated
loudness is clamped into `[-input_range, 0] = [-70, 0]`; the
standard-deviation multiplier is always at least
`std_compression_max = 0.975` and is at most 1 WHEN the chunk's amplitude
standard deviation is at most `expected_std_max = 3.5` (it exceeds 1 for
larger deviations); the returned target equals
`min(loudness_target * std_multiplier, 0)` and is never positive. -/
theorem find_target_loudness_bounds (meter : List ℝ → ℝ) (audio_data : List ℝ) :
    (-70 ≤ loudness_point_of (meter audio_data) 70 ∧
      loudness_point_of (meter audio_data) 70 ≤ 0) ∧
    0.975 ≤ audio_std_target_loudness_of (npStd (audio_data.map fun x => |x|))
      0.975 0.8 3.5 ∧
    (npStd (audio_data.map fun x => |x|) ≤ 3.5 →
      audio_std_target_loudness_of (npStd (audio_data.map fun x => |x|))
        0.975 0.8 3.5 ≤ 1) ∧
    find_target_loudness meter audio_data =
      min (loudness_point_target_loudness_of (loudness_point_of (meter audio_data) 70)
          70 50 1 10 *
        audio_std_target_loudness_of (npStd (audio_data.map fun x => |x|)) 0.975 0.8 3.5) 0 ∧
    find_target_loudness meter audio_data ≤ 0 := by
  have hσ0 : 0 ≤ npStd (audio_data.map fun x => |x|) := Real.sqrt_nonneg _
  refine ⟨⟨le_max_right _ _, max_le (min_le_right _ _) (by norm_num)⟩, ?_, ?_, rfl, ?_⟩
  · unfold audio_std_target_loudness_of
    have h1 : 0 ≤ npStd (audio_data.map fun x => |x|) ^ (0.8 : ℝ) :=
      Real.rpow_nonneg hσ0 _
    have h2 : 0 ≤ (3.5 : ℝ) ^ (-(0.8 : ℝ)) := Real.rpow_nonneg (by norm_num) _
    nlinarith [h1, h2]
  · intro hσ
    unfold audio_std_target_loudness_of
    rw [Real.rpow_neg (by norm_num : (0 : ℝ) ≤ 3.5)]
    have h1 : npStd (audio_data.map fun x => |x|) ^ (0.8 : ℝ) ≤ (3.5 : ℝ) ^ (0.8 : ℝ) :=
      Real.rpow_le_rpow hσ0 hσ (by norm_num)
    have h2 : (0 : ℝ) < (3.5 : ℝ) ^ (0.8 : ℝ) := Real.rpow_pos_of_pos (by norm_num) _
    have h3 : npStd (audio_data.map fun x => |x|) ^ (0.8 : ℝ) *
        ((3.5 : ℝ) ^ (0.8 : ℝ))⁻¹ ≤ 1 := by
      rw [← div_eq_mul_inv, div_le_one h2]
      exact h1
    nlinarith [h3]
  · exact min_le_right _ _

/-- Witness for C5 (amended): the silent one-sample chunk `[0]` has
standard deviation 0 ≤ 3.5, so all bounds apply to it. -/
theorem find_target_loudness_bounds_witness :
    0.975 ≤ audio_std_target_loudness_of (npStd (([0] : List ℝ).map fun x => |x|))
      0.975 0.8 3.5 ∧
    audio_std_target_loudness_of (npStd (([0] : List ℝ).map fun x => |x|))
      0.975 0.8 3.5 ≤ 1 ∧
    find_target_loudness (fun _ => 0) [0] ≤ 0 := by
  have hstd : npStd (([0] : List ℝ).map fun x => |x|) = 0 := by
    have h1 : (([0] : List ℝ).map fun x => |x|) = [0] := by norm_num
    rw [h1]
    have h2 : npMean ([0] : List ℝ) = 0 := by norm_num [npMean]
    unfold npStd
    rw [h2]
    have h3 : (([0] : List ℝ).map fun x => (x - 0) ^ 2) = [0] := by norm_num
    rw [h3, h2, Real.sqrt_zero]
  have h := find_target_loudness_bounds (fun _ => 0) [0]
  exact ⟨h.2.1, h.2.2.1 (by rw [hstd]; norm_num), h.2.2.2.2⟩

/-- C8: for every chunk that continues playback, the returned output
buffer is exactly the zero-substituted chunk peak-normalized to the target
loudness, blended 90/10 with the (substituted) raw chunk, times the stored
volume; each blended sample's magnitude exceeds the target's peak scale
`10^(target/20)` by at most the 10% raw-blend contribution
`0.1 * |raw sample|`; and whenever the stored volume is in `[0, 1]` the
same bound holds for the returned buffer itself. -/
theorem callback_output_formula_and_bound (meter : List ℝ → ℝ) (fileData : List ℝ)
    (n : Nat) (s : PState) (data : List ℝ) (t : ℝ)
    (h1 : s.is_playback_unpaused = true) (h2 : s.is_stopped = false)
    (h3 : ¬zeroSubstitute (fileWindow fileData s.current_frame n) = [])
    (hM : 0 < npMaxAbs data) :
    (callback meter fileData n s).result = CbResult.continue_playback
      ((peakBlend (zeroSubstitute (fileWindow fileData s.current_frame n))
          (find_target_loudness meter (fileWindow fileData s.current_frame n))).map
        fun x => x * (s.volume : ℝ)) ∧
    (∀ p ∈ (peakBlend data t).zip data, |p.1| ≤ (10 : ℝ) ^ (t / 20) + 0.1 * |p.2|) ∧
    (0 ≤ s.volume → s.volume ≤ 1 →
      0 < npMaxAbs (zeroSubstitute (fileWindow fileData s.current_frame n)) →
      ∀ p ∈ (((peakBlend (zeroSubstitute (fileWindow fileData s.current_frame n))
            (find_target_loudness meter (fileWindow fileData s.current_frame n))).map
          fun x => x * (s.volume : ℝ)).zip
            (zeroSubstitute (fileWindow fileData s.current_frame n))),
        |p.1| ≤ (10 : ℝ) ^
            (find_target_loudness meter (fileWindow fileData s.current_frame n) / 20) +
          0.1 * |p.2|) := by
  refine ⟨?_, peakBlend_bound data t hM, ?_⟩
  · have hlen : ¬(zeroSubstitute (fileWindow fileData s.current_frame n)).length = 0 := by
      simpa [List.length_eq_zero] using h3
    simp [callback, h1, h2, hlen]
  · intro hv0 hv1 hM2
    exact peakBlend_scaled_bound _ _ _ hM2 (by exact_mod_cast hv0) (by exact_mod_cast hv1)

/-- Witness for C8: the one-sample chunk `[1]` at target loudness 0 dB,
with the stored volume 1. -/
theorem callback_output_formula_and_bound_witness :
    (callback (fun _ => 0) [1] 1 sampleState).result = CbResult.continue_playback
      ((peakBlend (zeroSubstitute (fileWindow [1] sampleState.current_frame 1))
          (find_target_loudness (fun _ => 0) (fileWindow [1] sampleState.current_frame 1))).map
        fun x => x * (sampleState.volume : ℝ)) ∧
    (∀ p ∈ (peakBlend [1] 0).zip [1], |p.1| ≤ (10 : ℝ) ^ ((0 : ℝ) / 20) + 0.1 * |p.2|) ∧
    ∀ p ∈ (((peakBlend (zeroSubstitute (fileWindow [1] sampleState.current_frame 1))
          (find_target_loudness (fun _ => 0) (fileWindow [1] sampleState.current_frame 1))).map
        fun x => x * (sampleState.volume : ℝ)).zip
          (zeroSubstitute (fileWindow [1] sampleState.current_frame 1))),
      |p.1| ≤ (10 : ℝ) ^
          (find_target_loudness (fun _ => 0) (fileWindow [1] sampleState.current_frame 1) / 20) +
        0.1 * |p.2| := by
  have h := callback_output_formula_and_bound (fun _ => 0) [1] 1 sampleState [1] 0 rfl rfl
    (by simp [zeroSubstitute, fileWindow, sampleState]) (by norm_num [npMaxAbs])
  exact ⟨h.1, h.2.1, h.2.2 (by decide) (by decide)
    (by norm_num [npMaxAbs, zeroSubstitute, fileWindow, sampleState])⟩

end MediaPlayer
